import Mathlib

/-!
Verification development for the multi-step form autofill repository
(`autofill_ai_vision_multistep.py`, `decision_handler.py`).

The Python code is shallowly embedded: pure computations become Lean
functions over explicit data; the Playwright page handle is modelled by a
record of the observable facts the code queries (URL, page text, button
texts, which selectors locate a visible+enabled element).  Python's `re`
module is an external library; its patterns are embedded as regular
expression ASTs denoting the same languages, matched by a total
Brzozowski-derivative matcher.  Scores use exact rationals; Python's
`round(x, 3)` (banker's rounding) is modelled by `pyRound3`.
-/

namespace Autofill

/-! ## Regular expressions (model of Python `re.search`)

Constructs needed by the patterns in the source: literals, character
classes (`\d`, `\s`, `[-.\s]`), `?`, `*`, `+`, `{n}`, alternation and the
anchors `^`/`$` (which occur only around whole patterns, e.g. `^email$`).
Matching is case-sensitive; the code lowercases the subject and uses
`re.IGNORECASE`, so every embedded pattern literal is written lowercased,
which denotes the same match outcome. -/

inductive Regex where
  | eps : Regex
  | chr (c : Char) : Regex
  | cls (cs : List Char) : Regex
  | seq (a b : Regex) : Regex
  | alt (a b : Regex) : Regex
  | star (a : Regex) : Regex
  deriving Repr, DecidableEq

def Regex.nullable : Regex → Bool
  | .eps => true
  | .chr _ => false
  | .cls _ => false
  | .seq a b => a.nullable && b.nullable
  | .alt a b => a.nullable || b.nullable
  | .star _ => true

def Regex.derivC : Regex → Char → Regex
  | .eps, _ => .cls []
  | .chr c, x => if x = c then .eps else .cls []
  | .cls cs, x => if cs.contains x then .eps else .cls []
  | .seq a b, x => if a.nullable then .alt (.seq (a.derivC x) b) (b.derivC x) else .seq (a.derivC x) b
  | .alt a b, x => .alt (a.derivC x) (b.derivC x)
  | .star a, x => .seq (a.derivC x) (.star a)

/-- Does `r` match the whole character list? -/
def Regex.matchFull : Regex → List Char → Bool
  | r, [] => r.nullable
  | r, c :: cs => (r.derivC c).matchFull cs

/-- Does `r` match some prefix of the character list? -/
def Regex.matchSomeFront : Regex → List Char → Bool
  | r, [] => r.nullable
  | r, c :: cs => r.nullable || (r.derivC c).matchSomeFront cs

/-- A source pattern: a regex plus the `^` / `$` anchors (the only
anchored patterns in the source are of the form `^lit$`). -/
structure Pat where
  anchorStart : Bool
  anchorEnd : Bool
  re : Regex
  deriving Repr, DecidableEq

/-- Model of `re.search(pattern, s)`: an (anchor-respecting) match of the
regex at some position of `s`. -/
def patSearch (p : Pat) (s : String) : Bool :=
  let l := s.toList
  if p.anchorStart && p.anchorEnd then p.re.matchFull l
  else if p.anchorStart then p.re.matchSomeFront l
  else if p.anchorEnd then l.tails.any (fun t => p.re.matchFull t)
  else l.tails.any (fun t => p.re.matchSomeFront t)

/-! Word-bounded search, modelling `re.search(r'\b core \b', s)` for cores
that begin and end with word characters (true of every such pattern in
`_classify_button`): the match must start after a non-word character (or
the string start) and end before a non-word character (or the string
end). -/

def isWordChar (c : Char) : Bool := c.isAlphanum || c = '_'

def boundaryBefore : Option Char → Bool
  | none => true
  | some c => !isWordChar c

/-- Does `r` match some prefix of the list ending at a word boundary? -/
def matchFrontAtBoundary : Regex → List Char → Bool
  | r, [] => r.nullable
  | r, c :: cs => (r.nullable && !isWordChar c) || matchFrontAtBoundary (r.derivC c) cs

def searchWordBoundedFrom (r : Regex) : Option Char → List Char → Bool
  | prev, [] => boundaryBefore prev && matchFrontAtBoundary r []
  | prev, c :: cs =>
      (boundaryBefore prev && matchFrontAtBoundary r (c :: cs)) ||
      searchWordBoundedFrom r (some c) cs

/-- `re.search` for a `\b…\b`-delimited core regex. -/
def searchWB (r : Regex) (s : String) : Bool :=
  searchWordBoundedFrom r none s.toList

/-! Pattern-building helpers used to transcribe the source regexes. -/

def rlit (s : String) : Regex :=
  s.toList.foldr (fun c acc => Regex.seq (.chr c) acc) .eps

def rcat (l : List Regex) : Regex := l.foldr .seq .eps

def ropt (r : Regex) : Regex := .alt r .eps

def rplus (r : Regex) : Regex := .seq r (.star r)

/-- `\d` -/
def rdigit : Regex := .cls "0123456789".toList

/-- `\s` (Python ASCII whitespace class) -/
def rws : Regex := .cls " \t\n\r\x0b\x0c".toList

/-- `r{n}` -/
def rrep (r : Regex) : Nat → Regex
  | 0 => .eps
  | n + 1 => .seq r (rrep r n)

/-- an unanchored pattern -/
def pat (r : Regex) : Pat := ⟨false, false, r⟩

/-- a `^…$`-anchored pattern -/
def patFull (r : Regex) : Pat := ⟨true, true, r⟩

/-- `A\s*B` ; the most common composite in the source patterns. -/
def rwsBetween (a b : String) : Regex := rcat [rlit a, .star rws, rlit b]

/-- `A-?B` -/
def roptDash (a b : String) : Regex := rcat [rlit a, ropt (.chr '-'), rlit b]

/-! ## String helpers (Python `in`, `lower()`, `strip()`, `endswith`,
`join`) — defined over the character list so they are kernel-computable.
All inputs here are ASCII, where `Char.toLower` agrees with Python
`str.lower()`. -/

/-- Python `str.lower()`. -/
def lowerStr (s : String) : String := String.mk (s.data.map Char.toLower)

/-- Python `str.strip()`. -/
def trimStr (s : String) : String :=
  String.mk (((s.data.dropWhile Char.isWhitespace).reverse.dropWhile
    Char.isWhitespace).reverse)

/-- Python `s.endswith(t)`. -/
def endsWithStr (s t : String) : Bool := t.data.isSuffixOf s.data

/-- Python `" ".join(parts)`. -/
def joinWithSpace (parts : List String) : String :=
  String.mk (List.intercalate [' '] (parts.map String.data))

/-- Python `needle in hay` on strings (contiguous substring). -/
def strContains (hay needle : String) : Bool :=
  hay.toList.tails.any (fun t => needle.toList.isPrefixOf t)

/-- Case-insensitive substring test (used to model `:has-text(… i)` /
`text-matches(…, 'i')` locators and lowercased `in` checks). -/
def strContainsCI (hay needle : String) : Bool :=
  strContains (lowerStr hay) (lowerStr needle)

/-! ## Banker's rounding (Python `round(x, 3)`) on exact rationals -/

def roundHalfEven (q : ℚ) : ℤ :=
  let f : ℤ := ⌊q⌋
  let r : ℚ := q - f
  if r < 1 / 2 then f
  else if 1 / 2 < r then f + 1
  else if f % 2 = 0 then f else f + 1

def pyRound3 (q : ℚ) : ℚ := (roundHalfEven (q * 1000) : ℚ) / 1000

/-! ## Data model (`FieldType`, element attribute bundle, `FormField`)

`FieldType` is the closed enumeration of `autofill_ai_vision_multistep.py`.
An element's attribute bundle (the dict built by `_get_element_data`) is a
record of strings; `safe_get_attribute` defaults every missing attribute
to `""`, so `""` models an absent attribute exactly as the code treats it
(`if not …: continue`). -/

inductive FieldType where
  | email | password | confirm_password | first_name | last_name | full_name
  | phone | location | address_line1 | address_line2 | city | state
  | zip_code | country | company | job_title | years_experience | salary
  | school | degree | field_of_study | graduation_date | linkedin
  | portfolio | website | cover_letter_text | resume_file
  | cover_letter_file | text_input | select | checkbox | radio_button
  | textarea | submit_button | next_button | unknown
  deriving Repr, DecidableEq

/-- The `.value` string of each enum member. -/
def FieldType.value : FieldType → String
  | .email => "email"
  | .password => "password"
  | .confirm_password => "confirm_password"
  | .first_name => "first_name"
  | .last_name => "last_name"
  | .full_name => "full_name"
  | .phone => "phone"
  | .location => "location"
  | .address_line1 => "address_line1"
  | .address_line2 => "address_line2"
  | .city => "city"
  | .state => "state"
  | .zip_code => "zip_code"
  | .country => "country"
  | .company => "company"
  | .job_title => "job_title"
  | .years_experience => "years_experience"
  | .salary => "salary"
  | .school => "school"
  | .degree => "degree"
  | .field_of_study => "field_of_study"
  | .graduation_date => "graduation_date"
  | .linkedin => "linkedin_profile_url"
  | .portfolio => "portfolio_url"
  | .website => "personal_website_url"
  | .cover_letter_text => "cover_letter_text"
  | .resume_file => "resume_file"
  | .cover_letter_file => "cover_letter_file"
  | .text_input => "text_input"
  | .select => "select_dropdown"
  | .checkbox => "checkbox"
  | .radio_button => "radio_button_group"
  | .textarea => "textarea"
  | .submit_button => "submit_button"
  | .next_button => "next_button"
  | .unknown => "unknown"

/-- The attribute bundle produced by `FieldDetector._get_element_data`.
Hyphenated dict keys become camelCase fields (`aria-label` ↦ `ariaLabel`,
`data-automation-id` ↦ `dataAutomationId`); `type` is the HTML input type
(defaulted to `"text"` for `input` tags by the code itself, so it is an
ordinary string here). -/
structure ElementData where
  tag : String := ""
  type : String := ""
  name : String := ""
  id : String := ""
  class_ : String := ""
  placeholder : String := ""
  ariaLabel : String := ""
  role : String := ""
  autocomplete : String := ""
  value : String := ""
  text : String := ""
  dataAutomationId : String := ""
  selector : String := ""
  label : String := ""
  deriving Repr, DecidableEq

/-- The slice of the `FormField` dataclass the analysis claims are about.
The live `element : Locator` handle is page-scoped and external; its
identity is carried by `selector` (as the spec's data model states). -/
structure FormField where
  fieldType : FieldType
  confidence : ℚ
  selector : String
  labelText : String
  attributes : ElementData
  deriving Repr, DecidableEq

/-! ## `UniversalFormFiller._get_default_attribute_weights` -/

def defaultAttributeWeights : List (String × ℚ) :=
  [("label", 2.5), ("name", 2.2), ("id", 2.0), ("placeholder", 1.8),
   ("type", 3.0), ("autocomplete", 3.5), ("data-automation-id", 2.8),
   ("aria-label", 1.5), ("text", 1.0), ("class", 0.5), ("context", 0.3)]

/-- Python `dict.get(key, default)` on an association list. -/
def dictGet (d : List (String × ℚ)) (k : String) (dflt : ℚ) : ℚ :=
  (d.lookup k).getD dflt

/-! ## `UniversalFormFiller._get_default_field_patterns`

A pattern set is an association list from pattern-group key (`names`,
`labels`, `placeholders`, `types`, `autocompletes`, `data-automation-ids`)
to the list of embedded regexes, in source order. -/

def PatternSet : Type := List (String × List Pat)

def emailPatternSet : PatternSet :=
  [("names", [pat (rlit "email"), pat (roptDash "e" "mail"),
              pat (roptDash "user" "name"), pat (rlit "login"),
              pat (rlit "userprincipalname")]),
   ("labels", [pat (rwsBetween "email" "address"), pat (roptDash "e" "mail"),
               pat (rwsBetween "your" "email"), pat (rwsBetween "user" "name"),
               pat (rwsBetween "login" "id")]),
   ("placeholders", [pat (rwsBetween "enter" "email"), pat (rlit "email"),
                     pat (rlit "@"), pat (rlit "example@company.com")]),
   ("types", [patFull (rlit "email")]),
   ("autocompletes", [pat (rlit "email"), pat (rlit "username")]),
   ("data-automation-ids", [pat (rlit "email"), pat (rlit "username"),
                            pat (rlit "userid")])]

def passwordPatternSet : PatternSet :=
  [("names", [pat (rlit "password"), pat (roptDash "pass" "word"),
              pat (rlit "pwd"), pat (rlit "userpass"),
              pat (rcat [rlit "credentials", .chr '.', rlit "password"])]),
   ("labels", [pat (rlit "password"), pat (roptDash "pass" "word"),
               pat (rlit "pincode")]),
   ("placeholders", [pat (rwsBetween "enter" "password"), pat (rlit "password")]),
   ("types", [patFull (rlit "password")]),
   ("autocompletes", [pat (rlit "current-password"), pat (rlit "new-password")]),
   ("data-automation-ids", [pat (rlit "password")])]

def firstNamePatternSet : PatternSet :=
  [("names", [pat (roptDash "first" "name"), pat (roptDash "f" "name"),
              pat (roptDash "given" "name"), pat (rlit "forename"),
              pat (rlit "firstname"),
              pat (rcat [rlit "contact", .chr '.', rlit "firstname"])]),
   ("labels", [pat (rwsBetween "first" "name"), pat (rwsBetween "given" "name"),
               pat (rlit "forename")]),
   ("placeholders", [pat (rwsBetween "first" "name"), pat (rwsBetween "given" "name")]),
   ("autocompletes", [pat (rlit "given-name"), pat (rlit "fname")])]

def lastNamePatternSet : PatternSet :=
  [("names", [pat (roptDash "last" "name"), pat (roptDash "l" "name"),
              pat (rlit "surname"), pat (roptDash "family" "name"),
              pat (rlit "lastname"),
              pat (rcat [rlit "contact", .chr '.', rlit "lastname"])]),
   ("labels", [pat (rwsBetween "last" "name"), pat (rlit "surname"),
               pat (rwsBetween "family" "name")]),
   ("placeholders", [pat (rwsBetween "last" "name"), pat (rlit "surname")]),
   ("autocompletes", [pat (rlit "family-name"), pat (rlit "lname")])]

/-- `[-.\s]` -/
def rdashDotWs : Regex := .cls ('-' :: '.' :: " \t\n\r\x0b\x0c".toList)

/-- `\(?\d{3}\)?[-.\s]?\d{3}[-.\s]?\d{4}` -/
def rphonePlaceholder : Regex :=
  rcat [ropt (.chr '('), rrep rdigit 3, ropt (.chr ')'), ropt rdashDotWs,
        rrep rdigit 3, ropt rdashDotWs, rrep rdigit 4]

def phonePatternSet : PatternSet :=
  [("names", [pat (rlit "phone"), pat (rlit "mobile"), pat (rlit "cell"),
              pat (rlit "telephone"), pat (roptDash "contact" "number"),
              pat (rlit "primaryphone")]),
   ("labels", [pat (rlit "phone"), pat (rlit "mobile"), pat (rlit "telephone"),
               pat (rwsBetween "contact" "number"), pat (rwsBetween "phone" "number")]),
   ("placeholders", [pat (rlit "phone"), pat (rlit "mobile"),
                     pat rphonePlaceholder, pat (rwsBetween "phone" "number")]),
   ("types", [patFull (rlit "tel")]),
   ("autocompletes", [pat (rlit "tel"), pat (rlit "tel-national")])]

def companyPatternSet : PatternSet :=
  [("names", [pat (rlit "company"), pat (rlit "employer"), pat (rlit "organization"),
              pat (roptDash "current" "employer"), pat (rlit "businessname")]),
   ("labels", [pat (rlit "company"), pat (rlit "employer"), pat (rlit "organization"),
               pat (rwsBetween "current" "employer"), pat (rwsBetween "company" "name")]),
   ("placeholders", [pat (rlit "company"), pat (rlit "employer"),
                     pat (rwsBetween "organization" "name")]),
   ("autocompletes", [pat (rlit "organization")])]

def jobTitlePatternSet : PatternSet :=
  [("names", [pat (roptDash "job" "title"), pat (rlit "position"), pat (rlit "role"),
              pat (rlit "title"), pat (rlit "currentposition")]),
   ("labels", [pat (rwsBetween "job" "title"), pat (rlit "position"),
               pat (rwsBetween "current" "position"), pat (rlit "role"),
               pat (rwsBetween "desired" "position")]),
   ("placeholders", [pat (rwsBetween "job" "title"), pat (rlit "position"),
                     pat (rwsBetween "your" "role")]),
   ("autocompletes", [pat (rlit "organization-title")])]

def resumeFilePatternSet : PatternSet :=
  [("names", [pat (rlit "resume"), pat (rlit "cv"), pat (rlit "curriculum"),
              pat (roptDash "resume" "upload"), pat (roptDash "cv" "upload"),
              pat (rlit "attachment")]),
   ("labels", [pat (rlit "resume"), pat (rlit "cv"), pat (rwsBetween "upload" "resume"),
               pat (rwsBetween "attach" "resume"), pat (rwsBetween "curriculum" "vitae")]),
   ("types", [patFull (rlit "file")]),
   ("data-automation-ids", [pat (rlit "resumeupload"), pat (rlit "fileuploader"),
                            pat (rlit "attachcv")])]

def addressLine1PatternSet : PatternSet :=
  [("names", [pat (rcat [rlit "address", ropt (.alt (rlit "1") (rlit "line1"))]),
              pat (rlit "street"), pat (rlit "addr1")]),
   ("labels", [pat (rcat [rlit "address", .star rws,
                          ropt (rcat [rlit "line", .star rws, rlit "1"])]),
               pat (rwsBetween "street" "address")]),
   ("placeholders", [pat (rwsBetween "street" "address"),
                     pat (rcat [rlit "address", .star rws, rlit "line", .star rws, rlit "1"])]),
   ("autocompletes", [pat (rlit "address-line1"), pat (rlit "street-address")])]

def cityPatternSet : PatternSet :=
  [("names", [pat (rlit "city"), pat (rlit "town")]),
   ("labels", [pat (rlit "city"), pat (rlit "town"), pat (rlit "suburb")]),
   ("placeholders", [pat (rlit "city"), pat (rlit "town")]),
   ("autocompletes", [pat (rlit "address-level2"), pat (rlit "city")])]

def statePatternSet : PatternSet :=
  [("names", [pat (rlit "state"), pat (rlit "province"), pat (rlit "region")]),
   ("labels", [pat (rlit "state"), pat (rlit "province"), pat (rlit "region")]),
   ("placeholders", [pat (rlit "state"), pat (rlit "province")]),
   ("autocompletes", [pat (rlit "address-level1"), pat (rlit "state")])]

def zipCodePatternSet : PatternSet :=
  [("names", [pat (rcat [rlit "zip", ropt (rcat [ropt (.chr '-'), rlit "code"])]),
              pat (rcat [rlit "postal", ropt (rcat [ropt (.chr '-'), rlit "code"])]),
              pat (rlit "postcode")]),
   ("labels", [pat (rlit "zip"), pat (rwsBetween "postal" "code"),
               pat (rwsBetween "post" "code")]),
   ("placeholders", [pat (rlit "zip"), pat (rwsBetween "postal" "code"),
                     pat (rcat [rrep rdigit 5, ropt (rcat [.chr '-', rrep rdigit 4])])]),
   ("autocompletes", [pat (rlit "postal-code"), pat (rlit "zip")])]

def textareaPatternSet : PatternSet :=
  [("names", [pat (roptDash "cover" "letter"), pat (rlit "message"), pat (rlit "comment"),
              pat (roptDash "additional" "info"), pat (rlit "summary"),
              pat (rlit "description")]),
   ("labels", [pat (rwsBetween "cover" "letter"), pat (rlit "message"),
               pat (rlit "comments"), pat (rwsBetween "additional" "information"),
               pat (rcat [rlit "tell", .star rws, rlit "us", .star rws, rlit "more"])])]

/-- The full dictionary returned by `_get_default_field_patterns`, in source
order. -/
def defaultFieldPatterns : List (FieldType × PatternSet) :=
  [(.email, emailPatternSet), (.password, passwordPatternSet),
   (.first_name, firstNamePatternSet), (.last_name, lastNamePatternSet),
   (.phone, phonePatternSet), (.company, companyPatternSet),
   (.job_title, jobTitlePatternSet), (.resume_file, resumeFilePatternSet),
   (.address_line1, addressLine1PatternSet), (.city, cityPatternSet),
   (.state, statePatternSet), (.zip_code, zipCodePatternSet),
   (.textarea, textareaPatternSet)]

/-! ## `UniversalFormFiller._get_default_negative_patterns` -/

def defaultNegativePatterns : List (FieldType × List Pat) :=
  [(.email, [pat (rlit "confirm"), pat (roptDash "re" "type"), pat (rlit "verify"),
             pat (rwsBetween "new" "email"), pat (rlit "search"), pat (rlit "filter")]),
   (.password, [pat (rlit "confirm"), pat (roptDash "re" "type"), pat (rlit "verify"),
                pat (rwsBetween "new" "password"), pat (rwsBetween "current" "password"),
                pat (rwsBetween "old" "password")]),
   (.first_name, [pat (rlit "last"), pat (rlit "family"), pat (rlit "surname"),
                  pat (rlit "middle"), pat (rlit "initial")]),
   (.last_name, [pat (rlit "first"), pat (rlit "given"), pat (rlit "middle"),
                 pat (rlit "initial")]),
   (.phone, [pat (rlit "extension"), pat (rcat [rlit "ext", ropt (.chr '.')]),
             pat (rwsBetween "country" "code"), pat (rwsBetween "area" "code")])]

/-- `self.negative_patterns.get(field_type, [])` -/
def negativePatternsFor (ft : FieldType) : List Pat :=
  ((defaultNegativePatterns.find? (fun kv => kv.1 = ft)).map (·.2)).getD []

/-! ## `FieldDetector._calculate_confidence` -/

/-- Which element attribute a pattern-group key is matched against
(the `if pattern_group_key == …` chain); unknown keys give `""` and are
skipped, as the code skips a `None` attribute. -/
def attrForGroup (d : ElementData) (key : String) : String :=
  if key = "names" then d.name
  else if key = "labels" then d.label
  else if key = "placeholders" then d.placeholder
  else if key = "types" then d.type
  else if key = "autocompletes" then d.autocomplete
  else if key = "data-automation-ids" then d.dataAutomationId
  else if key = "texts" then d.text
  else ""

/-- `pattern_group_key[:-1] if pattern_group_key.endswith('s') else …` -/
def singularKey (key : String) : String :=
  if endsWithStr key "s" then key.dropRight 1 else key

/-- The pattern-group accumulation loop: for every group whose attribute is
present, add the group's weight once if any regex of the group matches the
lowercased attribute (the `break` after the first match adds the weight at
most once, which `List.any` captures). -/
def groupScore (weights : List (String × ℚ)) (d : ElementData)
    (ps : PatternSet) : ℚ :=
  ps.foldl (fun acc kv =>
    let v := attrForGroup d kv.1
    if v = "" then acc
    else
      let w := dictGet weights (singularKey kv.1) 1
      if kv.2.any (fun p => patSearch p (lowerStr v)) then acc + w else acc) 0

/-- The exact input-type bonus block. -/
def typeBonus (weights : List (String × ℚ)) (d : ElementData)
    (ft : FieldType) (score : ℚ) : ℚ :=
  let htmlType := lowerStr d.type
  if htmlType = ft.value ∧ (ft = .email ∨ ft = .password) then
    score + dictGet weights "type" 3 * 1.5
  else if htmlType = "tel" ∧ ft = .phone then
    score + dictGet weights "type" 3
  else if htmlType = "file" ∧ (ft = .resume_file ∨ ft = .cover_letter_file) then
    score + dictGet weights "type" 3
  else score

/-- `text_attributes_to_check`, in source order. -/
def textAttributesToCheck (d : ElementData) : List String :=
  [d.label, d.name, d.id, d.placeholder, d.ariaLabel, d.text,
   d.dataAutomationId, d.autocomplete]

/-- The negative-pattern block: the nested loops break after the first
match, so the ×0.3 damping is applied at most once — i.e. exactly when some
negative regex matches some non-empty checked attribute. -/
def negativeDamp (d : ElementData) (negs : List Pat) (score : ℚ) : ℚ :=
  if negs.any (fun nr =>
       (textAttributesToCheck d).any (fun v => v ≠ "" && patSearch nr (lowerStr v)))
  then score * 0.3 else score

/-- `max_possible_score`: the sum of the weights whose *key* occurs as a key
of the pattern set, or is `"type"`, plus 2.0.  (The weight keys are
singular while the pattern-set keys are plural, so in fact only `"type"`
ever qualifies — see the C5 analysis.)  The `== 0 → 10.0` guard is kept. -/
def maxPossibleScore (weights : List (String × ℚ)) (ps : PatternSet) : ℚ :=
  let s := ((weights.filter (fun kv =>
              ps.any (fun g => g.1 = kv.1) || kv.1 = "type")).map (·.2)).sum + 2
  if s = 0 then 10 else s

/-- `FieldDetector._calculate_confidence`. -/
def calcConfidence (weights : List (String × ℚ)) (d : ElementData)
    (ps : PatternSet) (ft : FieldType) : ℚ :=
  let score := negativeDamp d (negativePatternsFor ft)
                 (typeBonus weights d ft (groupScore weights d ps))
  let m := maxPossibleScore weights ps
  let normalized := if 0 < score then min (score / m) 1 else 0
  pyRound3 normalized

/-! ## `FieldDetector._classify_button` -/

/-- `" ".join(filter(None, text_sources)).lower()` over
text/value/aria-label/name/id/data-automation-id. -/
def buttonCorpus (d : ElementData) : String :=
  lowerStr (joinWithSpace (([d.text, d.value, d.ariaLabel, d.name, d.id,
                             d.dataAutomationId]).filter (fun s => s ≠ "")))

def applyPatternCores : List Regex :=
  [rlit "apply now", rlit "apply for this job", rlit "submit application",
   rlit "apply"]

def nextPatternCores : List Regex :=
  [rlit "next", rlit "continue", rlit "proceed",
   rcat [rlit "step ", rplus rdigit], rlit "forward"]

def submitPatternCores : List Regex :=
  [rlit "submit", rlit "send", rlit "finish", rlit "complete", rlit "done",
   rlit "save & exit", rlit "save and exit", rlit "save"]

/-- `FieldDetector._classify_button`.  Note the carve-out on the `next`
branch is transcribed exactly as written in the source: it tests whether
the *literal raw strings* `\bsave\b` and `\bcontinue\b` are substrings of
the corpus (`r'\bsave\b' in full_text_corpus`), not whether those regexes
match. -/
def classifyButton (d : ElementData) : Option String :=
  let corpus := buttonCorpus d
  if trimStr corpus = "" then none
  else if applyPatternCores.any (fun r => searchWB r corpus) then some "apply"
  else if nextPatternCores.any (fun r => searchWB r corpus) then
    (if strContains corpus "\\bsave\\b" && strContains corpus "\\bcontinue\\b"
     then some "submit" else some "next")
  else if submitPatternCores.any (fun r => searchWB r corpus) then some "submit"
  else if lowerStr d.type = "submit" then some "submit"
  else none

/-! ## `FieldDetector._resolve_field_conflicts`

Python dicts keep keys in first-insertion order; `firstDedup` models the
key order of `elements_candidates` / `final_by_type`.  `list.sort(key=…,
reverse=True)` is a stable descending sort, so `[0]` is the earliest
element attaining the maximum, which `bestByConf` computes directly. -/

def firstDedupAux {α : Type} [DecidableEq α] (seen : List α) : List α → List α
  | [] => []
  | k :: rest =>
      if seen.contains k then firstDedupAux seen rest
      else k :: firstDedupAux (k :: seen) rest

def firstDedup {α : Type} [DecidableEq α] (l : List α) : List α :=
  firstDedupAux [] l

/-- Earliest maximum-confidence element (stable descending sort + `[0]`). -/
def bestByConf : List FormField → Option FormField
  | [] => none
  | x :: rest =>
      some (rest.foldl (fun acc y => if acc.confidence < y.confidence then y else acc) x)

/-- Phase 1: group candidates by element identity (`selector`), keep the
highest-scoring candidate per element. -/
def phase1Winners (cands : List FormField) : List FormField :=
  (firstDedup (cands.map (fun f => f.selector))).filterMap
    (fun k => bestByConf (cands.filter (fun f => f.selector = k)))

/-- Phase 2 + acceptance: group phase-1 winners by `FieldType`, keep the
single highest-scoring element per type, accept only if its confidence
meets the threshold.  (The source's `if ft not in resolved or …` re-check
can never demote: each type key is visited once.) -/
def resolveFieldConflicts (threshold : ℚ) (cands : List FormField) :
    List (FieldType × FormField) :=
  let winners := phase1Winners cands
  (firstDedup (winners.map (fun f => f.fieldType))).filterMap
    (fun ft =>
      match bestByConf (winners.filter (fun f => f.fieldType = ft)) with
      | none => none
      | some best => if threshold ≤ best.confidence then some (ft, best) else none)

/-! ## `FieldDetector._detect_form_purpose` -/

def jobAppKeywords : List FieldType :=
  [.resume_file, .cover_letter_file, .linkedin, .company, .job_title,
   .years_experience, .school, .degree]

def contactKeywords : List String :=
  ["message", "comment", "query", "question", "feedback"]

/-- `FieldDetector._detect_form_purpose`, a pure function of the resolved
mapping (an association list standing for the `detected_fields` dict, so
its keys are de-duplicated for the set operations). -/
def detectFormPurpose (detected : List (FieldType × FormField)) : String :=
  let present := firstDedup (detected.map (fun kv => kv.1))
  if present.contains .resume_file ||
     (present.contains .job_title && present.contains .company) ||
     2 ≤ (present.filter (fun ft => jobAppKeywords.contains ft)).length then
    "job_application"
  else if present.contains .email && present.contains .password &&
          (present.filter (fun ft =>
             ft ≠ .email && ft ≠ .password && ft ≠ .submit_button &&
             ft ≠ .next_button)).length ≤ 1 then
    "login"
  else if present.contains .email && present.contains .password &&
          (present.contains .first_name || present.contains .confirm_password ||
           present.contains .full_name) then
    "registration"
  else if present.contains .email &&
          (present.contains .full_name ||
           (present.contains .first_name && present.contains .last_name)) &&
          (present.contains .textarea || present.contains .text_input) then
    if detected.any (fun kv =>
         (kv.1 = .textarea || kv.1 = .text_input) &&
         contactKeywords.any (fun kw =>
           strContains (lowerStr (kv.2.labelText ++ " " ++ kv.2.attributes.placeholder)) kw))
    then "contact"
    else if present.length ≤ 5 then "contact"
    else "general_form"
  else "general_form"

/-! ## `FieldDetector.detect_all_fields_on_page` (pure core)

The Playwright enumeration of visible interactive elements is modelled by
the input list of attribute bundles; everything after extraction is pure
and embedded faithfully: button-like elements go through the intent
classifier into per-intent lists with fixed confidence 0.85, the rest are
scored against every pattern set, admitted above the 0.15 floor, the best
type kept if it reaches the configured threshold, and finally conflicts
are resolved. -/

def isButtonLike (d : ElementData) : Bool :=
  d.tag = "button" || d.tag = "a" ||
  d.type = "submit" || d.type = "button" || d.type = "reset" || d.type = "image" ||
  strContains d.role "button"

def buttonFieldType (c : String) : FieldType :=
  if c = "submit" then .submit_button
  else if c = "next" then .next_button
  else .unknown

def mkButtonField (d : ElementData) (c : String) : FormField :=
  { fieldType := buttonFieldType c, confidence := 0.85, selector := d.selector,
    labelText := if d.text ≠ "" then d.text else d.ariaLabel, attributes := d }

/-- `possible_types_for_element`: every field type whose confidence clears
the 0.15 admission floor. -/
def possibleTypes (d : ElementData) : List (ℚ × FieldType) :=
  defaultFieldPatterns.filterMap (fun ftps =>
    let c := calcConfidence defaultAttributeWeights d ftps.2 ftps.1
    if (0.15 : ℚ) < c then some (c, ftps.1) else none)

/-- Earliest maximum-confidence scored type (stable descending sort + `[0]`). -/
def bestScored : List (ℚ × FieldType) → Option (ℚ × FieldType)
  | [] => none
  | x :: rest => some (rest.foldl (fun acc y => if acc.1 < y.1 then y else acc) x)

def mkFieldCandidate (d : ElementData) (best : ℚ × FieldType) : FormField :=
  { fieldType := best.2, confidence := best.1, selector := d.selector,
    labelText := d.label, attributes := d }

structure ScanAcc where
  candidates : List FormField
  submitB : List FormField
  nextB : List FormField
  applyB : List FormField
  deriving Repr, DecidableEq

/-- One iteration of the element loop.  A button-like element whose
classification is an action intent goes to that intent's list and the
loop continues; otherwise the element is scored as a data field. -/
def scanElement (threshold : ℚ) (acc : ScanAcc) (d : ElementData) : ScanAcc :=
  let cls := if isButtonLike d then classifyButton d else none
  if cls = some "submit" then { acc with submitB := acc.submitB ++ [mkButtonField d "submit"] }
  else if cls = some "next" then { acc with nextB := acc.nextB ++ [mkButtonField d "next"] }
  else if cls = some "apply" then { acc with applyB := acc.applyB ++ [mkButtonField d "apply"] }
  else
    match bestScored (possibleTypes d) with
    | none => acc
    | some best =>
        if threshold ≤ best.1 then
          { acc with candidates := acc.candidates ++ [mkFieldCandidate d best] }
        else acc

structure FormAnalysis where
  detectedFields : List (FieldType × FormField)
  submitButtons : List FormField
  nextButtons : List FormField
  applyButtons : List FormField
  formPurpose : String
  deriving Repr, DecidableEq

def detectAllFields (threshold : ℚ) (elems : List ElementData) : FormAnalysis :=
  let acc := elems.foldl (scanElement threshold) ⟨[], [], [], []⟩
  let detected := resolveFieldConflicts threshold acc.candidates
  { detectedFields := detected,
    submitButtons := acc.submitB,
    nextButtons := acc.nextB,
    applyButtons := acc.applyB,
    formPurpose := detectFormPurpose detected }

/-! ## `decision_handler.py`

The Playwright page is modelled by the observable facts the handler
queries: the URL; the page text (`*:text-matches(…, 'i')` locator hits and
the `page.content().lower()` fallback are both case-insensitive presence
of the indicator in the page text); the texts of button-like elements (for
the `:has-text(… i)` option-text counting); and the set of selectors that
locate a visible & enabled element whose click succeeds.  The preference
store's `"decisions"` mapping is an association list; `_save_preferences`
writes the same mapping to disk, so one list models both. -/

structure DecisionOption where
  name : String
  selectors : List String
  preferred : Bool
  deriving Repr, DecidableEq

structure DecisionPoint where
  name : String
  description : String
  urlPatterns : List String
  textIndicators : List String
  buttonOptionsTexts : List String
  options : List DecisionOption
  deriving Repr, DecidableEq

structure PageModel where
  url : String
  content : String
  buttonTexts : List String
  clickable : List String
  deriving Repr, DecidableEq

def autofillResumeOption : DecisionOption :=
  { name := "autofill_resume_workday",
    selectors := ["a[data-automation-id=\x27autofillWithResume\x27]",
                  "button[data-automation-id=\x27autofillWithResume\x27]",
                  "button:text-matches(\x27(?i)autofill.*resume\x27)",
                  "a:text-matches(\x27(?i)autofill.*resume\x27)",
                  "[aria-label*=\x27Autofill with Resume\x27 i]"],
    preferred := true }

def applyManuallyOption : DecisionOption :=
  { name := "apply_manually_workday",
    selectors := ["a[data-automation-id=\x27applyManually\x27]",
                  "button[data-automation-id=\x27applyManually\x27]",
                  "button:has-text(\x27Apply Manually\x27)",
                  "a:has-text(\x27Apply Manually\x27)",
                  "[aria-label*=\x27Apply Manually\x27 i]"],
    preferred := false }

def useLastApplicationOption : DecisionOption :=
  { name := "use_last_application_workday",
    selectors := ["a[data-automation-id=\x27useMyLastApplication\x27]",
                  "button[data-automation-id=\x27useMyLastApplication\x27]",
                  "button:has-text(\x27Use My Last Application\x27)",
                  "a:has-text(\x27Use My Last Application\x27)",
                  "[aria-label*=\x27Use My Last Application\x27 i]"],
    preferred := false }

def workdayMethodDP : DecisionPoint :=
  { name := "workday_application_method_selection",
    description := "Workday: Choose how to apply (Autofill/Manual/Last Application)",
    urlPatterns := ["myworkdayjobs.com"],
    textIndicators := ["Start Your Application",
                       "Please select how you would like to apply",
                       "How would you like to apply?"],
    buttonOptionsTexts := ["Autofill with Resume", "Apply Manually",
                           "Use My Last Application"],
    options := [autofillResumeOption, applyManuallyOption,
                useLastApplicationOption] }

def resumeParseDP : DecisionPoint :=
  { name := "resume_parse_confirmation",
    description := "Confirm parsed resume information after autofill",
    urlPatterns := ["myworkdayjobs.com/apply"],
    textIndicators := ["Review your information", "Confirm your details",
                       "Information from resume", "Review and Submit",
                       "My Information"],
    buttonOptionsTexts := ["Continue", "Next", "Save and continue",
                           "Edit Information"],
    options :=
      [{ name := "continue_after_parse",
         selectors := ["button[data-automation-id*=\x27continue\x27 i]",
                       "button[data-automation-id*=\x27next\x27 i]",
                       "button:has-text(\x27Continue\x27 i)",
                       "button:has-text(\x27Next\x27 i)",
                       "button:text-matches(\x27(?i)save.*continue\x27)"],
         preferred := true }] }

/-- `DecisionHandler._initialize_decision_points`. -/
def initializeDecisionPoints : List DecisionPoint :=
  [workdayMethodDP, resumeParseDP]

/-- The per-decision-point condition of `detect_decision_point`:
`(url_match or text_match) and buttons_criterion_met` with
`required_buttons = max(1, len(button_options_texts) // 2)` (floor
division). -/
def dpMatches (page : PageModel) (dp : DecisionPoint) : Bool :=
  let urlMatch := dp.urlPatterns.any
    (fun p => strContains (lowerStr page.url) (lowerStr p))
  let textMatch := dp.textIndicators.any (fun ind => strContainsCI page.content ind)
  let found := (dp.buttonOptionsTexts.filter
                  (fun bt => page.buttonTexts.any (fun b => strContainsCI b bt))).length
  let criterion :=
    if dp.buttonOptionsTexts = [] then true
    else decide (max 1 (dp.buttonOptionsTexts.length / 2) ≤ found)
  (urlMatch || textMatch) && criterion

/-- `DecisionHandler.detect_decision_point`: the first decision point in
list order whose criteria hold. -/
def detectDecisionPoint (dps : List DecisionPoint) (page : PageModel) :
    Option DecisionPoint :=
  dps.find? (dpMatches page)

/-- `DecisionHandler.get_stored_decision`. -/
def getStoredDecision (decisions : List (String × String)) (name : String) :
    Option String :=
  decisions.lookup name

/-- `DecisionHandler.store_decision` (+ `_save_preferences`): dict
assignment on the `"decisions"` mapping. -/
def storeDecision (decisions : List (String × String)) (name choice : String) :
    List (String × String) :=
  if decisions.any (fun kv => kv.1 = name) then
    decisions.map (fun kv => if kv.1 = name then (name, choice) else kv)
  else decisions ++ [(name, choice)]

/-- The option-selection prelude of `handle_decision_point`: a stored
choice naming one of the options wins; a stored choice naming no option
falls back; otherwise the default preferred option (when `auto_select`). -/
def selectedOptionDef (decisions : List (String × String)) (dp : DecisionPoint)
    (autoSelect : Bool) : Option DecisionOption :=
  match (getStoredDecision decisions dp.name).bind
          (fun n => dp.options.find? (fun o => o.name = n)) with
  | some o => some o
  | none => if autoSelect then dp.options.find? (fun o => o.preferred) else none

/-- The click loop: selector candidates in order; the first that locates a
visible & enabled element and clicks successfully wins. -/
def firstClickableSelector (page : PageModel) (opt : DecisionOption) :
    Option String :=
  opt.selectors.find? (fun s => page.clickable.contains s)

structure DecisionOutcome where
  handled : Bool
  decisions : List (String × String)
  /-- `(chosen option name, selector clicked)` when a click happened. -/
  clicked : Option (String × String)
  deriving Repr, DecidableEq

/-- `DecisionHandler.handle_decision_point`: the decision is stored
immediately after — and only after — a successful click. -/
def handleDecisionPoint (decisions : List (String × String)) (page : PageModel)
    (dp : DecisionPoint) (autoSelect : Bool) : DecisionOutcome :=
  match selectedOptionDef decisions dp autoSelect with
  | none => ⟨false, decisions, none⟩
  | some opt =>
      match firstClickableSelector page opt with
      | none => ⟨false, decisions, none⟩
      | some s => ⟨true, storeDecision decisions dp.name opt.name, some (opt.name, s)⟩

/-! `handle_application_method_selection`, the Workday-specific handler the
public entry point tries first.  It never consults the preference store:
it looks for the method-selection text indicators and clicks the first
clickable "Autofill with Resume" selector. -/

def amsTextIndicators : List String :=
  ["Start Your Application", "Please select how you would like to apply",
   "How would you like to apply?"]

def amsAutofillSelectors : List String :=
  ["a[data-automation-id=\x27autofillWithResume\x27]",
   "button[data-automation-id=\x27autofillWithResume\x27]",
   "a[data-automation-id=\x27autoFillResumeButton\x27]",
   "button[data-automation-id=\x27autoFillResumeButton\x27]",
   "button:text-matches(\x27(?i)autofill.*resume\x27)",
   "a:text-matches(\x27(?i)autofill.*resume\x27)",
   "[aria-label*=\x27Autofill with Resume\x27 i]"]

structure SpecificOutcome where
  handled : Bool
  clicked : Option String
  deriving Repr, DecidableEq

def handleApplicationMethodSelection (page : PageModel) : SpecificOutcome :=
  if amsTextIndicators.any (fun ind => strContainsCI page.content ind) then
    match amsAutofillSelectors.find? (fun s => page.clickable.contains s) with
    | some s => ⟨true, some s⟩
    | none => ⟨false, none⟩
  else ⟨false, none⟩

structure CheckOutcome where
  handled : Bool
  decisions : List (String × String)
  clickedOption : Option String
  clickedSelector : Option String
  deriving Repr, DecidableEq

/-- `check_and_handle_decision_points`: the specific Workday handler is
tried first; only if it does not act is the general detection/resolution
path entered. -/
def checkAndHandleDecisionPoints (decisions : List (String × String))
    (dps : List DecisionPoint) (page : PageModel) : CheckOutcome :=
  let ams := handleApplicationMethodSelection page
  if ams.handled then ⟨true, decisions, none, ams.clicked⟩
  else
    match detectDecisionPoint dps page with
    | some dp =>
        let r := handleDecisionPoint decisions page dp true
        ⟨r.handled, r.decisions, r.clicked.map (fun c => c.1),
         r.clicked.map (fun c => c.2)⟩
    | none => ⟨false, decisions, none, none⟩

/-! ## DOM stability observer (`_inject_stability_observer_script`)

The injected script's mutation model: `processMutations` sets
`lastCriticalMutation := Date.now()` on every critical mutation, and
`isStable()` returns `Date.now() - lastCriticalMutation >=
stabilityWindowMs`.  Times are integers (JS epoch milliseconds). -/

/-- Effect of one observed mutation batch entry on `lastCriticalMutation`. -/
def processMutation (last now : ℤ) (critical : Bool) : ℤ :=
  if critical then now else last

/-- `window.stabilityDetector.isStable()` at time `now`. -/
def isStable (windowMs last now : ℤ) : Bool :=
  decide (windowMs ≤ now - last)

/-- `lastCriticalMutation` after a sequence of critical mutations at the
given times (initially `Date.now()` at `startObserving`, here `init`). -/
def lastCriticalAfter (init : ℤ) (muts : List ℤ) : ℤ :=
  muts.foldl (fun last t => processMutation last t true) init

/-! ## Spec-side definition for the normalization claim (C5)

The claim (spec §4.2) says the raw score is normalized "by dividing by
(sum of applicable category weights + a fixed constant)".  This second
definition follows the claim's words — the denominator sums the weights of
the attribute categories that occur in the field type's pattern set (the
pattern-set keys singularized to the weight keys), plus the same constant
2.0 — so it can be compared with `calcConfidence`, whose denominator
`maxPossibleScore` compares the *singular* weight keys against the
*plural* pattern-set keys and therefore only ever counts `"type"`. -/
def specClaimedDenominator (weights : List (String × ℚ)) (ps : PatternSet) : ℚ :=
  ((weights.filter (fun kv =>
      ps.any (fun g => singularKey g.1 = kv.1) || kv.1 = "type")).map (·.2)).sum + 2

def specClaimedConfidence (weights : List (String × ℚ)) (d : ElementData)
    (ps : PatternSet) (ft : FieldType) : ℚ :=
  let score := negativeDamp d (negativePatternsFor ft)
                 (typeBonus weights d ft (groupScore weights d ps))
  let m := specClaimedDenominator weights ps
  let normalized := if 0 < score then min (score / m) 1 else 0
  pyRound3 normalized

/-! ## Concrete instances used by the claim theorems -/

/-- A button element labelled "Save and Continue" (C1's failing input). -/
def saveContinueButton : ElementData :=
  { tag := "button", type := "submit", text := "Save and Continue",
    selector := "button" }

/-- An input whose only signal-bearing attribute is `autocomplete="email"`
(C8, and the C6 witness). -/
def autoEmailElem : ElementData :=
  { tag := "input", type := "text", autocomplete := "email",
    selector := "input[autocomplete]" }

/-- An input whose only signal-bearing attribute is `name="email"` (C5's
failing input). -/
def nameEmailElem : ElementData :=
  { tag := "input", type := "text", name := "email", selector := "input[name]" }

/-- C7 counterexample candidates: element `s1` scores 0.95 as phone and 0.9
as email; element `s2` scores 0.5 as email.  Phase 1 keeps only (`s1`,
phone), so email resolves to `s2` at 0.5 although the raw candidate list
holds an email candidate at 0.9. -/
def c7candPhone : FormField :=
  { fieldType := .phone, confidence := 0.95, selector := "s1", labelText := "",
    attributes := {} }

def c7candEmailHigh : FormField :=
  { fieldType := .email, confidence := 0.9, selector := "s1", labelText := "",
    attributes := {} }

def c7candEmailLow : FormField :=
  { fieldType := .email, confidence := 0.5, selector := "s2", labelText := "",
    attributes := {} }

def c7cands : List FormField := [c7candPhone, c7candEmailHigh, c7candEmailLow]

/-- A plain submit button element (C6 witness input). -/
def submitBtnElem : ElementData :=
  { tag := "button", type := "submit", text := "Submit", selector := "button" }

/-- A placeholder descriptor of the given type (the purpose classifier
only reads the key set for the C2 sets). -/
def mkTypedField (ft : FieldType) : FormField :=
  { fieldType := ft, confidence := 0.9, selector := ft.value, labelText := "",
    attributes := {} }

/-- Page for the C3 counterexample: the Workday URL pattern matches, no
text indicator is present, and exactly one of the three expected option
button texts ("Autofill with Resume") exists on the page. -/
def c3Page : PageModel :=
  { url := "https://acme.myworkdayjobs.com/careers",
    content := "",
    buttonTexts := ["Autofill with Resume"],
    clickable := [] }

/-- Stored preference naming the non-default Workday option (C4). -/
def c4decisions : List (String × String) :=
  [("workday_application_method_selection", "apply_manually_workday")]

/-- Page for the C4 counterexample: the Workday method-selection page, with
both the "Autofill with Resume" and the "Apply Manually" controls
clickable. -/
def c4Page : PageModel :=
  { url := "https://acme.myworkdayjobs.com/careers",
    content := "How would you like to apply?",
    buttonTexts := ["Autofill with Resume", "Apply Manually",
                    "Use My Last Application"],
    clickable := ["a[data-automation-id=\x27autofillWithResume\x27]",
                  "button[data-automation-id=\x27applyManually\x27]"] }

/-- A Workday method-selection page with nothing clickable (C10 witness). -/
def c10Page : PageModel :=
  { url := "https://acme.myworkdayjobs.com/careers",
    content := "How would you like to apply?",
    buttonTexts := ["Autofill with Resume"],
    clickable := [] }

/-! ## Helper lemmas -/

theorem foldl_pick_mem {α : Type} (f : α → α → α)
    (hf : ∀ a b, f a b = a ∨ f a b = b) :
    ∀ (l : List α) (x : α), l.foldl f x = x ∨ l.foldl f x ∈ l := by
  intro l
  induction l with
  | nil => intro x; left; rfl
  | cons y ys ih =>
      intro x
      rcases ih (f x y) with h | h
      · rcases hf x y with h2 | h2
        · left; rw [List.foldl_cons, h, h2]
        · right; rw [List.foldl_cons, h, h2]; exact List.mem_cons_self _ _
      · right; exact List.mem_cons_of_mem _ h

theorem foldl_invariant {α β : Type} (P : α → Prop) (f : α → β → α)
    (hf : ∀ a b, P a → P (f a b)) :
    ∀ (l : List β) (a : α), P a → P (l.foldl f a) := by
  intro l
  induction l with
  | nil => intro a ha; exact ha
  | cons b bs ih => intro a ha; exact ih (f a b) (hf a b ha)

theorem bestByConf_mem {l : List FormField} {f : FormField}
    (h : bestByConf l = some f) : f ∈ l := by
  cases l with
  | nil => simp [bestByConf] at h
  | cons x rest =>
      simp only [bestByConf, Option.some.injEq] at h
      subst h
      have hmem : rest.foldl (fun acc y => if acc.confidence < y.confidence then y else acc) x = x ∨
          rest.foldl (fun acc y => if acc.confidence < y.confidence then y else acc) x ∈ rest :=
        foldl_pick_mem _ (fun a b => by by_cases hc : a.confidence < b.confidence <;> simp [hc]) rest x
      rcases hmem with h2 | h2
      · rw [h2]; exact List.mem_cons_self _ _
      · exact List.mem_cons_of_mem _ h2

theorem foldl_best_ge (l : List FormField) (x : FormField) :
    x.confidence ≤
      (l.foldl (fun acc y => if acc.confidence < y.confidence then y else acc) x).confidence ∧
    ∀ g ∈ l,
      g.confidence ≤
        (l.foldl (fun acc y => if acc.confidence < y.confidence then y else acc) x).confidence := by
  induction l generalizing x with
  | nil => exact ⟨le_refl _, by intro g hg; simp at hg⟩
  | cons y ys ih =>
      have hstep : x.confidence ≤ (if x.confidence < y.confidence then y else x).confidence ∧
          y.confidence ≤ (if x.confidence < y.confidence then y else x).confidence := by
        by_cases hc : x.confidence < y.confidence
        · simp [hc]; exact le_of_lt hc
        · simp [hc]; exact le_of_not_lt hc
      rcases ih (if x.confidence < y.confidence then y else x) with ⟨ih1, ih2⟩
      refine ⟨le_trans hstep.1 ih1, ?_⟩
      intro g hg
      rcases List.mem_cons.mp hg with rfl | hg2
      · exact le_trans hstep.2 ih1
      · exact ih2 g hg2

theorem bestByConf_max {l : List FormField} {f : FormField}
    (h : bestByConf l = some f) : ∀ g ∈ l, g.confidence ≤ f.confidence := by
  cases l with
  | nil => simp [bestByConf] at h
  | cons x rest =>
      simp only [bestByConf, Option.some.injEq] at h
      intro g hg
      rcases List.mem_cons.mp hg with rfl | hg2
      · exact h ▸ (foldl_best_ge rest g).1
      · exact h ▸ (foldl_best_ge rest x).2 g hg2

theorem bestScored_mem {l : List (ℚ × FieldType)} {x : ℚ × FieldType}
    (h : bestScored l = some x) : x ∈ l := by
  cases l with
  | nil => simp [bestScored] at h
  | cons y rest =>
      simp only [bestScored, Option.some.injEq] at h
      subst h
      have hmem : rest.foldl (fun acc z => if acc.1 < z.1 then z else acc) y = y ∨
          rest.foldl (fun acc z => if acc.1 < z.1 then z else acc) y ∈ rest :=
        foldl_pick_mem _ (fun a b => by by_cases hc : a.1 < b.1 <;> simp [hc]) rest y
      rcases hmem with h2 | h2
      · rw [h2]; exact List.mem_cons_self _ _
      · exact List.mem_cons_of_mem _ h2

theorem firstDedupAux_subset {α : Type} [DecidableEq α] :
    ∀ (l seen : List α) (x : α), x ∈ firstDedupAux seen l → x ∈ l := by
  intro l
  induction l with
  | nil => intro seen x hx; simp [firstDedupAux] at hx
  | cons k rest ih =>
      intro seen x hx
      simp only [firstDedupAux] at hx
      split at hx
      · exact List.mem_cons_of_mem _ (ih seen x hx)
      · rcases List.mem_cons.mp hx with rfl | hx2
        · exact List.mem_cons_self _ _
        · exact List.mem_cons_of_mem _ (ih (k :: seen) x hx2)

theorem firstDedupAux_not_mem_seen {α : Type} [DecidableEq α] :
    ∀ (l seen : List α) (x : α), x ∈ firstDedupAux seen l → x ∉ seen := by
  intro l
  induction l with
  | nil => intro seen x hx; simp [firstDedupAux] at hx
  | cons k rest ih =>
      intro seen x hx
      simp only [firstDedupAux] at hx
      split at hx
      · exact ih seen x hx
      · rename_i hk
        rcases List.mem_cons.mp hx with rfl | hx2
        · intro hmem
          exact hk (List.elem_eq_true_of_mem hmem)
        · have := ih (k :: seen) x hx2
          intro hmem
          exact this (List.mem_cons_of_mem _ hmem)

theorem firstDedupAux_nodup {α : Type} [DecidableEq α] :
    ∀ (l seen : List α), (firstDedupAux seen l).Nodup := by
  intro l
  induction l with
  | nil => intro seen; simp [firstDedupAux]
  | cons k rest ih =>
      intro seen
      simp only [firstDedupAux]
      split
      · exact ih seen
      · refine List.nodup_cons.mpr ⟨?_, ih (k :: seen)⟩
        intro hk
        exact firstDedupAux_not_mem_seen rest (k :: seen) k hk
          (List.mem_cons_self _ _)

theorem firstDedup_subset {α : Type} [DecidableEq α] (l : List α) (x : α)
    (h : x ∈ firstDedup l) : x ∈ l :=
  firstDedupAux_subset l [] x h

theorem firstDedup_nodup {α : Type} [DecidableEq α] (l : List α) :
    (firstDedup l).Nodup :=
  firstDedupAux_nodup l []

theorem nodup_filterMap_keys {α β : Type} [DecidableEq α] (g : α → Option β)
    (key : β → α) (hg : ∀ a b, g a = some b → key b = a) :
    ∀ l : List α, l.Nodup → ((l.filterMap g).map key).Nodup := by
  intro l
  induction l with
  | nil => intro _; simp
  | cons a rest ih =>
      intro hl
      rcases List.nodup_cons.mp hl with ⟨ha, hrest⟩
      cases hga : g a with
      | none => simpa [List.filterMap_cons, hga] using ih hrest
      | some b =>
          rw [List.filterMap_cons, hga, List.map_cons]
          refine List.nodup_cons.mpr ⟨?_, ih hrest⟩
          intro hmem
          rcases List.mem_map.mp hmem with ⟨b2, hb2, hkey⟩
          rcases List.mem_filterMap.mp hb2 with ⟨a2, ha2, hga2⟩
          have := hg a2 b2 hga2
          rw [hg a b hga] at hkey
          exact ha (hkey ▸ this ▸ ha2)

/-- The (`dict.get` result of a) weight lookup is nonnegative when every
weight and the default are. -/
theorem dictGet_nonneg {d : List (String × ℚ)} {k : String} {dflt : ℚ}
    (hd : ∀ kv ∈ d, 0 ≤ kv.2) (hdflt : 0 ≤ dflt) : 0 ≤ dictGet d k dflt := by
  unfold dictGet
  induction d with
  | nil => simpa using hdflt
  | cons kv rest ih =>
      by_cases hk : k = kv.1
      · have hbeq : (k == kv.1) = true := by simp [hk]
        have : List.lookup k (kv :: rest) = some kv.2 := by
          simp [List.lookup, hbeq]
        rw [this]
        exact hd kv (List.mem_cons_self _ _)
      · have hbeq : (k == kv.1) = false := by simp [hk]
        have : List.lookup k (kv :: rest) = List.lookup k rest := by
          simp [List.lookup, hbeq]
        rw [this]
        exact ih (fun kv2 h2 => hd kv2 (List.mem_cons_of_mem _ h2))

theorem groupScore_nonneg (weights : List (String × ℚ)) (d : ElementData)
    (ps : PatternSet) (hw : ∀ kv ∈ weights, 0 ≤ kv.2) :
    0 ≤ groupScore weights d ps := by
  unfold groupScore
  refine foldl_invariant (fun a => 0 ≤ a) _ ?_ ps 0 (le_refl 0)
  intro a kv ha
  dsimp only
  split
  · exact ha
  · split
    · exact add_nonneg ha (dictGet_nonneg hw zero_le_one)
    · exact ha

theorem typeBonus_nonneg (weights : List (String × ℚ)) (d : ElementData)
    (ft : FieldType) (s : ℚ) (hw : ∀ kv ∈ weights, 0 ≤ kv.2) (hs : 0 ≤ s) :
    0 ≤ typeBonus weights d ft s := by
  have h3 : (0 : ℚ) ≤ 3 := by norm_num
  simp only [typeBonus]
  split
  · have := dictGet_nonneg (d := weights) (k := "type") hw h3
    positivity
  · split
    · exact add_nonneg hs (dictGet_nonneg hw h3)
    · split
      · exact add_nonneg hs (dictGet_nonneg hw h3)
      · exact hs

theorem negativeDamp_nonneg (d : ElementData) (negs : List Pat) (s : ℚ)
    (hs : 0 ≤ s) : 0 ≤ negativeDamp d negs s := by
  unfold negativeDamp
  split
  · positivity
  · exact hs

theorem maxPossibleScore_pos (weights : List (String × ℚ)) (ps : PatternSet)
    (hw : ∀ kv ∈ weights, 0 ≤ kv.2) : 0 < maxPossibleScore weights ps := by
  simp only [maxPossibleScore]
  have hsum : 0 ≤ ((weights.filter (fun kv =>
      ps.any (fun g => g.1 = kv.1) || kv.1 = "type")).map (·.2)).sum := by
    refine List.sum_nonneg ?_
    intro q hq
    rcases List.mem_map.mp hq with ⟨kv, hkv, rfl⟩
    exact hw kv (List.mem_of_mem_filter hkv)
  have h2 : (0 : ℚ) < ((weights.filter (fun kv =>
      ps.any (fun g => g.1 = kv.1) || kv.1 = "type")).map (·.2)).sum + 2 := by
    linarith
  split
  · norm_num
  · exact h2

theorem roundHalfEven_bounds {q : ℚ} (h0 : 0 ≤ q) (h1 : q ≤ 1000) :
    0 ≤ roundHalfEven q ∧ roundHalfEven q ≤ 1000 := by
  have hf0 : 0 ≤ ⌊q⌋ := Int.floor_nonneg.mpr h0
  have hf1000 : ⌊q⌋ ≤ 1000 := by
    have := Int.floor_le_floor h1
    simpa using this
  have hfloor_le : (⌊q⌋ : ℚ) ≤ q := Int.floor_le q
  have hkey : ¬(q - (⌊q⌋ : ℚ) < 1 / 2) → ⌊q⌋ < 1000 := by
    intro hgt
    have hge : (1 : ℚ) / 2 ≤ q - ⌊q⌋ := not_lt.mp hgt
    have hpos : (⌊q⌋ : ℚ) < q := by linarith
    have hlt : (⌊q⌋ : ℚ) < 1000 := lt_of_lt_of_le hpos h1
    exact_mod_cast hlt
  simp only [roundHalfEven]
  split_ifs with ha hb hc
  · exact ⟨hf0, hf1000⟩
  · have h9 := hkey ha
    constructor <;> omega
  · exact ⟨hf0, hf1000⟩
  · have h9 := hkey ha
    constructor <;> omega

theorem pyRound3_bounds {q : ℚ} (h0 : 0 ≤ q) (h1 : q ≤ 1) :
    0 ≤ pyRound3 q ∧ pyRound3 q ≤ 1 := by
  have hb := roundHalfEven_bounds (q := q * 1000) (by linarith) (by linarith)
  unfold pyRound3
  constructor
  · have : (0 : ℚ) ≤ (roundHalfEven (q * 1000) : ℚ) := by exact_mod_cast hb.1
    positivity
  · have : (roundHalfEven (q * 1000) : ℚ) ≤ 1000 := by exact_mod_cast hb.2
    rw [div_le_one (by norm_num : (0:ℚ) < 1000)]
    exact this

/-- The scorer's output is always within `[0, 1]` (for nonnegative
weights; `defaultAttributeWeights` are nonnegative). -/
theorem calcConfidence_bounds (weights : List (String × ℚ)) (d : ElementData)
    (ps : PatternSet) (ft : FieldType) (hw : ∀ kv ∈ weights, 0 ≤ kv.2) :
    0 ≤ calcConfidence weights d ps ft ∧ calcConfidence weights d ps ft ≤ 1 := by
  simp only [calcConfidence]
  have hm := maxPossibleScore_pos weights ps hw
  have hscore : 0 ≤ negativeDamp d (negativePatternsFor ft)
      (typeBonus weights d ft (groupScore weights d ps)) :=
    negativeDamp_nonneg _ _ _
      (typeBonus_nonneg _ _ _ _ hw (groupScore_nonneg _ _ _ hw))
  set s := negativeDamp d (negativePatternsFor ft)
      (typeBonus weights d ft (groupScore weights d ps)) with hs_def
  by_cases hpos : 0 < s
  · have hdiv : 0 ≤ s / maxPossibleScore weights ps :=
      div_nonneg (le_of_lt hpos) (le_of_lt hm)
    have hmin0 : 0 ≤ min (s / maxPossibleScore weights ps) 1 :=
      le_min hdiv zero_le_one
    have hmin1 : min (s / maxPossibleScore weights ps) 1 ≤ 1 := min_le_right _ _
    simp only [hpos, if_true]
    exact pyRound3_bounds hmin0 hmin1
  · simp only [hpos, if_false]
    exact pyRound3_bounds (le_refl 0) zero_le_one

theorem defaultAttributeWeights_nonneg :
    ∀ kv ∈ defaultAttributeWeights, 0 ≤ kv.2 := by
  intro kv hkv
  fin_cases hkv <;> norm_num

theorem phase1_subset {cands : List FormField} {f : FormField}
    (h : f ∈ phase1Winners cands) : f ∈ cands := by
  rcases List.mem_filterMap.mp h with ⟨k, _, hbest⟩
  exact List.mem_of_mem_filter (bestByConf_mem hbest)

theorem phase1_selector_eq {cands : List FormField} {f : FormField}
    (h : f ∈ phase1Winners cands) :
    bestByConf (cands.filter (fun g => g.selector = f.selector)) = some f := by
  rcases List.mem_filterMap.mp h with ⟨k, _, hbest⟩
  have hfmem := bestByConf_mem hbest
  have hsel : f.selector = k := by
    have := List.of_mem_filter hfmem
    simpa using this
  rw [hsel]
  exact hbest

theorem resolve_mem {threshold : ℚ} {cands : List FormField} {ft : FieldType}
    {f : FormField} (h : (ft, f) ∈ resolveFieldConflicts threshold cands) :
    f ∈ phase1Winners cands ∧ f.fieldType = ft ∧ threshold ≤ f.confidence ∧
      ∀ g ∈ phase1Winners cands, g.fieldType = ft → g.confidence ≤ f.confidence := by
  rcases List.mem_filterMap.mp h with ⟨ft2, _, hmatch⟩
  cases hbb : bestByConf ((phase1Winners cands).filter (fun g => g.fieldType = ft2)) with
  | none => rw [hbb] at hmatch; simp at hmatch
  | some best =>
      rw [hbb] at hmatch
      simp only at hmatch
      split at hmatch
      · rename_i hth
        have hpair : ft2 = ft ∧ best = f := by
          constructor <;> · injection hmatch with h2; cases h2; rfl
        rcases hpair with ⟨rfl, rfl⟩
        have hfil := bestByConf_mem hbb
        have hmemw : best ∈ phase1Winners cands := List.mem_of_mem_filter hfil
        have hty : best.fieldType = ft2 := by
          have := List.of_mem_filter hfil
          simpa using this
        refine ⟨hmemw, hty, hth, ?_⟩
        intro g hg hgty
        exact bestByConf_max hbb g (List.mem_filter.mpr ⟨hg, by simpa using hgty⟩)
      · simp at hmatch

theorem possibleTypes_bounds {d : ElementData} {x : ℚ × FieldType}
    (h : x ∈ possibleTypes d) : 0 ≤ x.1 ∧ x.1 ≤ 1 := by
  rcases List.mem_filterMap.mp h with ⟨ftps, _, hx⟩
  simp only at hx
  split at hx
  · cases hx
    exact calcConfidence_bounds defaultAttributeWeights d ftps.2 ftps.1
      defaultAttributeWeights_nonneg
  · simp at hx

theorem scanElement_bounds (threshold : ℚ) (acc : ScanAcc) (d : ElementData)
    (hprev : (∀ f ∈ acc.candidates, 0 ≤ f.confidence ∧ f.confidence ≤ 1) ∧
             (∀ f ∈ acc.submitB, 0 ≤ f.confidence ∧ f.confidence ≤ 1) ∧
             (∀ f ∈ acc.nextB, 0 ≤ f.confidence ∧ f.confidence ≤ 1) ∧
             (∀ f ∈ acc.applyB, 0 ≤ f.confidence ∧ f.confidence ≤ 1)) :
    (∀ f ∈ (scanElement threshold acc d).candidates, 0 ≤ f.confidence ∧ f.confidence ≤ 1) ∧
    (∀ f ∈ (scanElement threshold acc d).submitB, 0 ≤ f.confidence ∧ f.confidence ≤ 1) ∧
    (∀ f ∈ (scanElement threshold acc d).nextB, 0 ≤ f.confidence ∧ f.confidence ≤ 1) ∧
    (∀ f ∈ (scanElement threshold acc d).applyB, 0 ≤ f.confidence ∧ f.confidence ≤ 1) := by
  rcases hprev with ⟨hc, hs, hn, ha⟩
  have hbtn : ∀ c, 0 ≤ (mkButtonField d c).confidence ∧ (mkButtonField d c).confidence ≤ 1 := by
    intro c
    constructor <;> norm_num [mkButtonField]
  have happend : ∀ (l : List FormField) (x : FormField),
      (∀ f ∈ l, 0 ≤ f.confidence ∧ f.confidence ≤ 1) →
      (0 ≤ x.confidence ∧ x.confidence ≤ 1) →
      ∀ f ∈ l ++ [x], 0 ≤ f.confidence ∧ f.confidence ≤ 1 := by
    intro l x hl hx f hf
    rcases List.mem_append.mp hf with h2 | h2
    · exact hl f h2
    · rcases List.mem_singleton.mp h2 with rfl
      exact hx
  simp only [scanElement]
  by_cases h1 : (if isButtonLike d then classifyButton d else none) = some "submit"
  · rw [if_pos h1]
    exact ⟨hc, happend _ _ hs (hbtn _), hn, ha⟩
  · rw [if_neg h1]
    by_cases h2 : (if isButtonLike d then classifyButton d else none) = some "next"
    · rw [if_pos h2]
      exact ⟨hc, hs, happend _ _ hn (hbtn _), ha⟩
    · rw [if_neg h2]
      by_cases h3 : (if isButtonLike d then classifyButton d else none) = some "apply"
      · rw [if_pos h3]
        exact ⟨hc, hs, hn, happend _ _ ha (hbtn _)⟩
      · rw [if_neg h3]
        cases hbs : bestScored (possibleTypes d) with
        | none => exact ⟨hc, hs, hn, ha⟩
        | some best =>
            dsimp only
            by_cases hth : threshold ≤ best.1
            · rw [if_pos hth]
              refine ⟨happend _ _ hc ?_, hs, hn, ha⟩
              exact possibleTypes_bounds (bestScored_mem hbs)
            · rw [if_neg hth]
              exact ⟨hc, hs, hn, ha⟩

theorem scanFold_bounds (threshold : ℚ) (elems : List ElementData) :
    (∀ f ∈ (elems.foldl (scanElement threshold) ⟨[], [], [], []⟩).candidates,
        0 ≤ f.confidence ∧ f.confidence ≤ 1) ∧
    (∀ f ∈ (elems.foldl (scanElement threshold) ⟨[], [], [], []⟩).submitB,
        0 ≤ f.confidence ∧ f.confidence ≤ 1) ∧
    (∀ f ∈ (elems.foldl (scanElement threshold) ⟨[], [], [], []⟩).nextB,
        0 ≤ f.confidence ∧ f.confidence ≤ 1) ∧
    (∀ f ∈ (elems.foldl (scanElement threshold) ⟨[], [], [], []⟩).applyB,
        0 ≤ f.confidence ∧ f.confidence ≤ 1) := by
  refine foldl_invariant
    (fun acc : ScanAcc =>
      (∀ f ∈ acc.candidates, 0 ≤ f.confidence ∧ f.confidence ≤ 1) ∧
      (∀ f ∈ acc.submitB, 0 ≤ f.confidence ∧ f.confidence ≤ 1) ∧
      (∀ f ∈ acc.nextB, 0 ≤ f.confidence ∧ f.confidence ≤ 1) ∧
      (∀ f ∈ acc.applyB, 0 ≤ f.confidence ∧ f.confidence ≤ 1))
    (scanElement threshold) (fun a b hp => scanElement_bounds threshold a b hp)
    elems _ ?_
  refine ⟨?_, ?_, ?_, ?_⟩ <;> · intro f hf; simp at hf

/-! # Claim theorems -/

/-- **C1** (code bug).  The claim — following the spec's carve-out — says a
button whose corpus matches a next-family pattern and contains both the
words "save" and "continue" (and no apply-phrase) is classified `submit`,
so "Save and Continue" would be `submit`.  The code classifies it `next`:
the carve-out on line 868 tests whether the literal raw strings
`\bsave\b` and `\bcontinue\b` occur as substrings of the corpus
(`r'\bsave\b' in full_text_corpus`) instead of regex-searching them, so it
never fires on real button text.  This theorem evaluates the embedded code
at the failing input: the corpus matches the next-family and both words,
matches no apply-phrase, yet the result is `next`, not `submit`. -/
theorem c1_save_and_continue_classified_next :
    searchWB (rlit "continue") (buttonCorpus saveContinueButton) = true ∧
    searchWB (rlit "save") (buttonCorpus saveContinueButton) = true ∧
    applyPatternCores.all
      (fun r => !searchWB r (buttonCorpus saveContinueButton)) = true ∧
    classifyButton saveContinueButton = some "next" ∧
    classifyButton saveContinueButton ≠ some "submit" := by decide

/-- **C2** (counterexample).  The claim says the form purpose for the
resolved set {EMAIL, PASSWORD, FIRST_NAME} is `registration`; the code
returns `login`, because the login rule (email ∧ password with at most one
other non-action field) is checked before the registration rule and
FIRST_NAME is that one allowed extra field. -/
theorem c2_counterexample_first_name_is_login :
    detectFormPurpose
      [(.email, mkTypedField .email), (.password, mkTypedField .password),
       (.first_name, mkTypedField .first_name)] = "login" ∧
    ("login" : String) ≠ "registration" := by decide

/-- **C2** (amended).  `_detect_form_purpose` returns `login` for
{EMAIL, PASSWORD}, `job_application` for {EMAIL, PASSWORD, RESUME_FILE},
and — because the login rule tolerates one extra non-action field and is
checked first — `login` (not `registration`) for
{EMAIL, PASSWORD, FIRST_NAME}. -/
theorem c2_amended_form_purpose_triples :
    detectFormPurpose
      [(.email, mkTypedField .email), (.password, mkTypedField .password)] = "login" ∧
    detectFormPurpose
      [(.email, mkTypedField .email), (.password, mkTypedField .password),
       (.resume_file, mkTypedField .resume_file)] = "job_application" ∧
    detectFormPurpose
      [(.email, mkTypedField .email), (.password, mkTypedField .password),
       (.first_name, mkTypedField .first_name)] = "login" := by decide

/-- **C3** (counterexample).  The claim says at least half (rounded up,
floor 1) of the expected option button-texts must be present — for the
3-text Workday point, at least 2.  The code computes
`max(1, len // 2)` with floor division, which is 1 for 3 texts: on a page
whose URL matches and which shows only one of the three expected texts
("Autofill with Resume"), the decision point is still detected. -/
theorem c3_counterexample_one_of_three_buttons_detected :
    detectDecisionPoint initializeDecisionPoints c3Page = some workdayMethodDP ∧
    (workdayMethodDP.buttonOptionsTexts.filter
       (fun bt => c3Page.buttonTexts.any (fun b => strContainsCI b bt))).length = 1 ∧
    workdayMethodDP.buttonOptionsTexts.length = 3 ∧
    ¬(2 ≤ 1) := by decide

/-- **C3** (amended).  `detect_decision_point` reports a DecisionPoint only
when (some URL pattern is a substring of the lowercased URL OR some text
indicator is found on the page) AND — when the expected list is non-empty —
the number of expected option button-texts found is at least
`max(1, ⌊len/2⌋)` (floor division, not rounding up); in particular, for 3
expected texts one match suffices. -/
theorem c3_detect_reports_only_when_criteria_met (dps : List DecisionPoint)
    (page : PageModel) (dp : DecisionPoint)
    (h : detectDecisionPoint dps page = some dp) :
    (dp.urlPatterns.any (fun p => strContains (lowerStr page.url) (lowerStr p)) ||
     dp.textIndicators.any (fun ind => strContainsCI page.content ind)) = true ∧
    (dp.buttonOptionsTexts ≠ [] →
      max 1 (dp.buttonOptionsTexts.length / 2) ≤
        (dp.buttonOptionsTexts.filter
          (fun bt => page.buttonTexts.any (fun b => strContainsCI b bt))).length) := by
  have hdp : dpMatches page dp = true := List.find?_some h
  simp only [dpMatches] at hdp
  rcases (Bool.and_eq_true _ _).mp hdp with ⟨h1, h2⟩
  refine ⟨h1, ?_⟩
  intro hne
  rw [if_neg hne] at h2
  exact of_decide_eq_true h2

/-- **C3** (witness): the amended necessity theorem applied to the concrete
Workday page detection. -/
theorem c3_detect_reports_only_when_criteria_met_witness :
    (workdayMethodDP.urlPatterns.any
       (fun p => strContains (lowerStr c3Page.url) (lowerStr p)) ||
     workdayMethodDP.textIndicators.any
       (fun ind => strContainsCI c3Page.content ind)) = true ∧
    (workdayMethodDP.buttonOptionsTexts ≠ [] →
      max 1 (workdayMethodDP.buttonOptionsTexts.length / 2) ≤
        (workdayMethodDP.buttonOptionsTexts.filter
          (fun bt => c3Page.buttonTexts.any (fun b => strContainsCI b bt))).length) :=
  c3_detect_reports_only_when_criteria_met initializeDecisionPoints c3Page
    workdayMethodDP (by decide)

/-- **C4** (counterexample).  The claim says that whenever the stored
preference names one of the detected point's options, resolution selects
the stored option — *including* through the public
`check_and_handle_decision_points` path.  On the Workday method-selection
page, with the stored choice `apply_manually_workday` (which names an
option of the point) and with the Apply-Manually control clickable, the
public path instead acts through the Workday-specific handler and clicks
the "Autofill with Resume" selector — a selector of a *different* option —
and never consults the store. -/
theorem c4_counterexample_public_path_ignores_stored_preference :
    getStoredDecision c4decisions workdayMethodDP.name =
      some "apply_manually_workday" ∧
    workdayMethodDP.options.find?
      (fun o => o.name = "apply_manually_workday") = some applyManuallyOption ∧
    (checkAndHandleDecisionPoints c4decisions initializeDecisionPoints c4Page).handled
      = true ∧
    (checkAndHandleDecisionPoints c4decisions initializeDecisionPoints c4Page).clickedSelector
      = some "a[data-automation-id=\x27autofillWithResume\x27]" ∧
    ("a[data-automation-id=\x27autofillWithResume\x27]" ∉
      applyManuallyOption.selectors) ∧
    (checkAndHandleDecisionPoints c4decisions initializeDecisionPoints c4Page).clickedOption
      = none := by decide

/-- **C4** (amended).  When `handle_decision_point` itself resolves a
point: a stored choice naming one of the options is selected without
consulting the default preferred flag; with no stored choice the default
preferred option is used exactly when `auto_select`; a successful handling
clicks the selected option; and with no selectable option the point is
left unresolved.  (The public `check_and_handle_decision_points` path,
however, may first resolve a Workday method-selection page through a
specific handler that never reads the store — see the counterexample.) -/
theorem c4_amended_direct_resolution_order (decisions : List (String × String))
    (page : PageModel) (dp : DecisionPoint) (autoSelect : Bool) :
    (∀ n opt, getStoredDecision decisions dp.name = some n →
       dp.options.find? (fun o => o.name = n) = some opt →
       selectedOptionDef decisions dp autoSelect = some opt) ∧
    (getStoredDecision decisions dp.name = none →
       selectedOptionDef decisions dp autoSelect =
         (if autoSelect then dp.options.find? (fun o => o.preferred) else none)) ∧
    ((handleDecisionPoint decisions page dp autoSelect).handled = true →
       ((handleDecisionPoint decisions page dp autoSelect).clicked.map
           (fun c => c.1)) =
         (selectedOptionDef decisions dp autoSelect).map (fun o => o.name)) ∧
    (selectedOptionDef decisions dp autoSelect = none →
       handleDecisionPoint decisions page dp autoSelect = ⟨false, decisions, none⟩) := by
  refine ⟨?_, ?_, ?_, ?_⟩
  · intro n opt hn hopt
    unfold selectedOptionDef
    rw [hn, Option.some_bind, hopt]
  · intro hnone
    unfold selectedOptionDef
    rw [hnone, Option.none_bind]
  · intro hh
    unfold handleDecisionPoint at hh ⊢
    revert hh
    cases hsel : selectedOptionDef decisions dp autoSelect with
    | none => intro hh; simp at hh
    | some opt =>
        dsimp only
        cases hfc : firstClickableSelector page opt with
        | none => intro hh; simp at hh
        | some s => intro hh; rfl
  · intro hnone
    unfold handleDecisionPoint
    rw [hnone]

/-- **C4** (witness): at the concrete store and Workday point, the stored
choice `apply_manually_workday` is selected (not the preferred default,
which is the autofill option). -/
theorem c4_amended_direct_resolution_order_witness :
    selectedOptionDef c4decisions workdayMethodDP true = some applyManuallyOption :=
  (c4_amended_direct_resolution_order c4decisions c4Page workdayMethodDP true).1
    "apply_manually_workday" applyManuallyOption (by decide) (by decide)

/-- **C10**.  `handle_decision_point` persists a decision only immediately
after a successful click of one of the chosen option's selector
candidates: an unhandled outcome leaves the decisions mapping unchanged;
if no selector of the selected option is clickable the outcome is
unhandled with the store unchanged; and a handled outcome clicked a
clickable selector of the selected option and stored exactly that
option's name. -/
theorem c10_store_only_after_successful_click
    (decisions : List (String × String)) (page : PageModel)
    (dp : DecisionPoint) (autoSelect : Bool) :
    ((handleDecisionPoint decisions page dp autoSelect).handled = false →
       (handleDecisionPoint decisions page dp autoSelect).decisions = decisions) ∧
    (∀ opt, selectedOptionDef decisions dp autoSelect = some opt →
       (∀ s ∈ opt.selectors, ¬page.clickable.contains s) →
       (handleDecisionPoint decisions page dp autoSelect).handled = false ∧
       (handleDecisionPoint decisions page dp autoSelect).decisions = decisions) ∧
    ((handleDecisionPoint decisions page dp autoSelect).handled = true →
       ∃ opt s, selectedOptionDef decisions dp autoSelect = some opt ∧
         s ∈ opt.selectors ∧ page.clickable.contains s = true ∧
         (handleDecisionPoint decisions page dp autoSelect).decisions =
           storeDecision decisions dp.name opt.name ∧
         (handleDecisionPoint decisions page dp autoSelect).clicked =
           some (opt.name, s)) := by
  refine ⟨?_, ?_, ?_⟩
  · intro hh
    unfold handleDecisionPoint at hh ⊢
    revert hh
    cases hsel : selectedOptionDef decisions dp autoSelect with
    | none => intro hh; rfl
    | some opt =>
        dsimp only
        cases hfc : firstClickableSelector page opt with
        | none => intro hh; rfl
        | some s => intro hh; simp at hh
  · intro opt hsel hnone
    have hfc : firstClickableSelector page opt = none := by
      unfold firstClickableSelector
      rw [List.find?_eq_none]
      intro s hs
      exact hnone s hs
    unfold handleDecisionPoint
    rw [hsel]
    dsimp only
    rw [hfc]
    exact ⟨rfl, rfl⟩
  · intro hh
    unfold handleDecisionPoint at hh ⊢
    revert hh
    cases hsel : selectedOptionDef decisions dp autoSelect with
    | none => intro hh; simp at hh
    | some opt =>
        dsimp only
        cases hfc : firstClickableSelector page opt with
        | none => intro hh; simp at hh
        | some s =>
            intro hh
            refine ⟨opt, s, rfl, ?_, ?_, rfl, rfl⟩
            · exact List.mem_of_find?_eq_some hfc
            · exact List.find?_some hfc

/-- **C10** (witness): with nothing clickable on the page, handling the
Workday point fails and the decisions mapping is unchanged. -/
theorem c10_store_only_after_successful_click_witness :
    (handleDecisionPoint c4decisions c10Page workdayMethodDP true).handled = false ∧
    (handleDecisionPoint c4decisions c10Page workdayMethodDP true).decisions =
      c4decisions :=
  (c10_store_only_after_successful_click c4decisions c10Page workdayMethodDP true).2.1
    applyManuallyOption (by decide) (by decide)

/-- **C5** (code bug).  The claim — following the spec — says the
confidence is the raw score divided by "the sum of the weights of the
attribute categories applicable to that FieldType's pattern set plus a
fixed constant".  In the code the comparison `key in patterns_for_type`
matches the *singular* weight keys against the *plural* pattern-set keys,
so it never matches and only the `or key == 'type'` disjunct contributes:
the denominator is the constant 3.0 + 2.0 = 5.0 for every field type
(making the `if max_possible_score == 0` guard dead code).  At the failing
input — an element whose only signal is `name="email"` (raw score 2.2) —
the code yields 2.2/5 = 0.44, while the claim's normalization yields
2.2/17.8 ≈ 0.124. -/
theorem c5_denominator_ignores_pattern_categories :
    calcConfidence defaultAttributeWeights nameEmailElem emailPatternSet .email = 0.44 ∧
    specClaimedConfidence defaultAttributeWeights nameEmailElem emailPatternSet .email = 0.124 ∧
    (0.44 : ℚ) ≠ 0.124 ∧
    maxPossibleScore defaultAttributeWeights emailPatternSet = 5 ∧
    specClaimedDenominator defaultAttributeWeights emailPatternSet = 17.8 := by
  have p1 : patSearch (pat (rlit "email")) (lowerStr "email") = true := rfl
  have p2 : patSearch (patFull (rlit "email")) (lowerStr "text") = false := rfl
  have p3 : patSearch (pat (rlit "confirm")) (lowerStr "email") = false := rfl
  have p4 : patSearch (pat (roptDash "re" "type")) (lowerStr "email") = false := rfl
  have p5 : patSearch (pat (rlit "verify")) (lowerStr "email") = false := rfl
  have p6 : patSearch (pat (rwsBetween "new" "email")) (lowerStr "email") = false := rfl
  have p7 : patSearch (pat (rlit "search")) (lowerStr "email") = false := rfl
  have p8 : patSearch (pat (rlit "filter")) (lowerStr "email") = false := rfl
  have s1 : singularKey "names" = "name" := rfl
  have s2 : singularKey "labels" = "label" := rfl
  have s3 : singularKey "placeholders" = "placeholder" := rfl
  have s4 : singularKey "types" = "type" := rfl
  have s5 : singularKey "autocompletes" = "autocomplete" := rfl
  have s6 : singularKey "data-automation-ids" = "data-automation-id" := rfl
  have lw : lowerStr "text" = "text" := rfl
  have dg1 : dictGet defaultAttributeWeights "name" 1 = 2.2 := rfl
  have hg : groupScore defaultAttributeWeights nameEmailElem emailPatternSet = 2.2 := by
    simp [groupScore, emailPatternSet, attrForGroup, nameEmailElem, dg1,
      p1, p2, s1, s2, s3, s4, s5, s6]
  have hb : typeBonus defaultAttributeWeights nameEmailElem .email 2.2 = 2.2 := by
    simp [typeBonus, FieldType.value, nameEmailElem, lw]
  have hd : negativeDamp nameEmailElem (negativePatternsFor .email) 2.2 = 2.2 := by
    simp [negativeDamp, negativePatternsFor, defaultNegativePatterns,
      textAttributesToCheck, nameEmailElem, p3, p4, p5, p6, p7, p8, lw]
  have hm : maxPossibleScore defaultAttributeWeights emailPatternSet = 5 := by
    simp [maxPossibleScore, defaultAttributeWeights, emailPatternSet,
      List.filter_cons, List.filter_nil]
    norm_num
  have hsd : specClaimedDenominator defaultAttributeWeights emailPatternSet = 17.8 := by
    simp [specClaimedDenominator, defaultAttributeWeights, emailPatternSet,
      List.filter_cons, List.filter_nil, s1, s2, s3, s4, s5, s6]
    norm_num
  refine ⟨?_, ?_, by norm_num, hm, hsd⟩
  · simp only [calcConfidence, hg, hb, hd, hm]
    norm_num [pyRound3, roundHalfEven, min_def]
  · simp only [specClaimedConfidence, hg, hb, hd, hsd]
    norm_num [pyRound3, roundHalfEven, min_def]

/-- **C8**.  For an input element whose only signal-bearing attribute is
`autocomplete="email"` (type `text`, no other matching attribute), the
EMAIL confidence is 3.5/5 = 0.7, which exceeds the 0.15 admission floor,
and the element is admitted as an EMAIL candidate
(`possible_types_for_element` contains EMAIL). -/
theorem c8_autocomplete_email_clears_admission_floor :
    (0.15 : ℚ) <
      calcConfidence defaultAttributeWeights autoEmailElem emailPatternSet .email ∧
    (calcConfidence defaultAttributeWeights autoEmailElem emailPatternSet .email,
      FieldType.email) ∈ possibleTypes autoEmailElem := by
  have p1 : patSearch (pat (rlit "email")) (lowerStr "email") = true := rfl
  have p2 : patSearch (patFull (rlit "email")) (lowerStr "text") = false := rfl
  have p3 : patSearch (pat (rlit "confirm")) (lowerStr "email") = false := rfl
  have p4 : patSearch (pat (roptDash "re" "type")) (lowerStr "email") = false := rfl
  have p5 : patSearch (pat (rlit "verify")) (lowerStr "email") = false := rfl
  have p6 : patSearch (pat (rwsBetween "new" "email")) (lowerStr "email") = false := rfl
  have p7 : patSearch (pat (rlit "search")) (lowerStr "email") = false := rfl
  have p8 : patSearch (pat (rlit "filter")) (lowerStr "email") = false := rfl
  have s1 : singularKey "names" = "name" := rfl
  have s2 : singularKey "labels" = "label" := rfl
  have s3 : singularKey "placeholders" = "placeholder" := rfl
  have s4 : singularKey "types" = "type" := rfl
  have s5 : singularKey "autocompletes" = "autocomplete" := rfl
  have s6 : singularKey "data-automation-ids" = "data-automation-id" := rfl
  have lw : lowerStr "text" = "text" := rfl
  have dg3 : dictGet defaultAttributeWeights "autocomplete" 1 = 3.5 := rfl
  have hne : (("email" : String) = "") = False := by decide
  have hg : groupScore defaultAttributeWeights autoEmailElem emailPatternSet = 3.5 := by
    simp [groupScore, emailPatternSet, attrForGroup, autoEmailElem, dg3,
      p1, p2, s1, s2, s3, s4, s5, s6, hne]
  have hb : typeBonus defaultAttributeWeights autoEmailElem .email 3.5 = 3.5 := by
    simp [typeBonus, FieldType.value, autoEmailElem, lw]
  have hd : negativeDamp autoEmailElem (negativePatternsFor .email) 3.5 = 3.5 := by
    simp [negativeDamp, negativePatternsFor, defaultNegativePatterns,
      textAttributesToCheck, autoEmailElem, p3, p4, p5, p6, p7, p8, lw]
  have hm : maxPossibleScore defaultAttributeWeights emailPatternSet = 5 := by
    simp [maxPossibleScore, defaultAttributeWeights, emailPatternSet,
      List.filter_cons, List.filter_nil]
    norm_num
  have hc : calcConfidence defaultAttributeWeights autoEmailElem emailPatternSet .email
      = 0.7 := by
    simp only [calcConfidence, hg, hb, hd, hm]
    norm_num [pyRound3, roundHalfEven, min_def]
  constructor
  · rw [hc]; norm_num
  · refine List.mem_filterMap.mpr ⟨(.email, emailPatternSet), List.mem_cons_self _ _, ?_⟩
    simp only
    rw [hc]
    norm_num

/-- **C6**.  Every `FormField` produced by page analysis — each resolved
data-field descriptor and every action-button entry in the submit, next
and apply lists — has confidence in [0, 1]: buttons are created at the
constant 0.85, and data-field candidates carry `_calculate_confidence`
values, which are normalized to [0, 1]. -/
theorem c6_all_produced_confidences_in_unit_interval (threshold : ℚ)
    (elems : List ElementData) (f : FormField)
    (hf : f ∈ (detectAllFields threshold elems).detectedFields.map (fun kv => kv.2) ∨
          f ∈ (detectAllFields threshold elems).submitButtons ∨
          f ∈ (detectAllFields threshold elems).nextButtons ∨
          f ∈ (detectAllFields threshold elems).applyButtons) :
    0 ≤ f.confidence ∧ f.confidence ≤ 1 := by
  have hacc := scanFold_bounds threshold elems
  rcases hf with hf | hf | hf | hf
  · rcases List.mem_map.mp hf with ⟨p, hp, rfl⟩
    have hp2 : (p.1, p.2) ∈ resolveFieldConflicts threshold
        ((elems.foldl (scanElement threshold) ⟨[], [], [], []⟩).candidates) := by
      cases p
      exact hp
    have hr := resolve_mem hp2
    exact hacc.1 p.2 (phase1_subset hr.1)
  · exact hacc.2.1 f hf
  · exact hacc.2.2.1 f hf
  · exact hacc.2.2.2 f hf

/-- **C6** (witness): the submit-button FormField produced for a plain
submit button has confidence within [0, 1]. -/
theorem c6_all_produced_confidences_in_unit_interval_witness :
    0 ≤ (mkButtonField submitBtnElem "submit").confidence ∧
    (mkButtonField submitBtnElem "submit").confidence ≤ 1 :=
  c6_all_produced_confidences_in_unit_interval (2/5) [submitBtnElem]
    (mkButtonField submitBtnElem "submit")
    (Or.inr (Or.inl (List.mem_singleton.mpr rfl)))

/-- **C7** (counterexample).  The claim says every descriptor in the
resolved mapping is the highest-confidence *candidate* for its type.  On
the list where element `s1` scores 0.95 as phone and 0.9 as email and
element `s2` scores 0.5 as email, phase 1 keeps only phone for `s1`, so
email resolves to `s2` at confidence 0.5 even though the candidate list
holds an email candidate (`s1`) at 0.9. -/
theorem c7_counterexample_resolved_below_best_candidate :
    resolveFieldConflicts 0.45 c7cands =
      [(.phone, c7candPhone), (.email, c7candEmailLow)] ∧
    c7candEmailHigh ∈ c7cands ∧
    c7candEmailHigh.fieldType = .email ∧
    c7candEmailLow.confidence < c7candEmailHigh.confidence := by
  refine ⟨?_, List.mem_cons_of_mem _ (List.mem_cons_self _ _), rfl, ?_⟩
  · simp [resolveFieldConflicts, phase1Winners, bestByConf, firstDedup, firstDedupAux,
      c7cands, c7candPhone, c7candEmailHigh, c7candEmailLow,
      (by norm_num : ¬((0.95 : ℚ) < 0.9)), (by norm_num : ((0.45 : ℚ) ≤ 0.95)),
      (by norm_num : ((0.45 : ℚ) ≤ 0.5))]
  · norm_num [c7candEmailLow, c7candEmailHigh]

/-- **C7** (amended).  For every candidate list and threshold, the mapping
returned by `_resolve_field_conflicts` contains at most one descriptor per
FieldType, no selector appears as the descriptor of two different
FieldTypes, and every descriptor is of its key's type, meets the
acceptance threshold, and is the highest-confidence *phase-1 winner*
(per-element best candidate) of its type — not necessarily the
highest-confidence raw candidate, see the counterexample. -/
theorem c7_resolver_invariants (threshold : ℚ) (cands : List FormField) :
    ((resolveFieldConflicts threshold cands).map (fun p => p.1)).Nodup ∧
    (∀ p ∈ resolveFieldConflicts threshold cands,
       ∀ q ∈ resolveFieldConflicts threshold cands,
         p.1 ≠ q.1 → p.2.selector ≠ q.2.selector) ∧
    (∀ p ∈ resolveFieldConflicts threshold cands,
       p.2.fieldType = p.1 ∧ threshold ≤ p.2.confidence ∧
       ∀ g ∈ phase1Winners cands, g.fieldType = p.1 →
         g.confidence ≤ p.2.confidence) := by
  refine ⟨?_, ?_, ?_⟩
  · have hg : ∀ (a : FieldType) (b : FieldType × FormField),
        (fun ft =>
          match bestByConf ((phase1Winners cands).filter (fun f => f.fieldType = ft)) with
          | none => none
          | some best =>
              if threshold ≤ best.confidence then some (ft, best) else none) a = some b →
        (fun p : FieldType × FormField => p.1) b = a := by
      intro a b hab
      simp only at hab
      cases hbb : bestByConf ((phase1Winners cands).filter (fun f => f.fieldType = a)) with
      | none => rw [hbb] at hab; simp at hab
      | some best =>
          rw [hbb] at hab
          dsimp only at hab
          by_cases hth : threshold ≤ best.confidence
          · rw [if_pos hth] at hab
            rw [← Option.some.inj hab]
          · rw [if_neg hth] at hab
            simp at hab
    exact nodup_filterMap_keys _ (fun p : FieldType × FormField => p.1) hg
      (firstDedup ((phase1Winners cands).map (fun f => f.fieldType)))
      (firstDedup_nodup _)
  · intro p hp q hq hne heq
    cases p with
    | mk ft1 f1 =>
        cases q with
        | mk ft2 f2 =>
            have h1 := resolve_mem hp
            have h2 := resolve_mem hq
            have e1 := phase1_selector_eq h1.1
            have e2 := phase1_selector_eq h2.1
            simp only at heq
            rw [heq] at e1
            have hf : f1 = f2 := Option.some.inj (e1.symm.trans e2)
            apply hne
            simp only
            rw [← h1.2.1, ← h2.2.1, hf]
  · intro p hp
    cases p with
    | mk ft f =>
        have h := resolve_mem hp
        exact ⟨h.2.1, h.2.2.1, h.2.2.2⟩

/-- **C7** (witness): the invariants instantiated on the concrete
counterexample list — the two resolved types carry distinct selectors. -/
theorem c7_resolver_invariants_witness :
    ((.phone, c7candPhone) : FieldType × FormField).2.selector ≠
      ((.email, c7candEmailLow) : FieldType × FormField).2.selector :=
  (c7_resolver_invariants 0.45 c7cands).2.1 (.phone, c7candPhone)
    (by simp [resolveFieldConflicts, phase1Winners, bestByConf, firstDedup,
          firstDedupAux, c7cands, c7candPhone, c7candEmailHigh, c7candEmailLow,
          (by norm_num : ¬((0.95 : ℚ) < 0.9)), (by norm_num : ((0.45 : ℚ) ≤ 0.95)),
          (by norm_num : ((0.45 : ℚ) ≤ 0.5))])
    (.email, c7candEmailLow)
    (by simp [resolveFieldConflicts, phase1Winners, bestByConf, firstDedup,
          firstDedupAux, c7cands, c7candPhone, c7candEmailHigh, c7candEmailLow,
          (by norm_num : ¬((0.95 : ℚ) < 0.9)), (by norm_num : ((0.45 : ℚ) ≤ 0.95)),
          (by norm_num : ((0.45 : ℚ) ≤ 0.5))])
    (by decide)

/-- **C9**.  In the injected observer's mutation model, every critical
mutation resets `lastCriticalMutation` to the current time, and
`isStable` holds only when a full quiet window has elapsed since the last
critical mutation; consequently, for any critical-mutation sequence whose
consecutive gaps are all shorter than the window, the observer reports
unstable at every instant from the first mutation until a full window
after the last one. -/
theorem c9_never_stable_under_close_mutations :
    (∀ last now : ℤ, processMutation last now true = now) ∧
    ∀ (w init m0 : ℤ) (ms : List ℤ), 0 < w →
      List.Chain' (fun a b => a ≤ b ∧ b - a < w) (m0 :: ms) →
      ∀ q : ℤ, m0 ≤ q → q < ms.getLastD m0 + w →
        isStable w
          (lastCriticalAfter init ((m0 :: ms).filter (fun t => decide (t ≤ q)))) q
          = false := by
  refine ⟨fun last now => rfl, ?_⟩
  intro w init m0 ms
  induction ms generalizing init m0 with
  | nil =>
      intro hw _ q hq0 hqlast
      have hfil : (([m0] : List ℤ).filter (fun t => decide (t ≤ q))) = [m0] := by
        simp [List.filter_cons, hq0]
      rw [hfil]
      simp only [lastCriticalAfter, List.foldl, processMutation, if_pos]
      simp only [List.getLastD] at hqlast
      simp only [isStable, decide_eq_false_iff_not, not_le]
      omega
  | cons m1 rest ih =>
      intro hw hchain q hq0 hqlast
      rcases List.chain'_cons.mp hchain with ⟨⟨h01, hgap⟩, hchain1⟩
      by_cases hq1 : q < m1
      · have hsorted : ∀ t ∈ m1 :: rest, m1 ≤ t := by
          have hle : List.Chain' (fun a b : ℤ => a ≤ b) (m1 :: rest) :=
            List.Chain'.imp (fun a b hab => hab.1) hchain1
          have hpw := List.chain'_iff_pairwise.mp hle
          intro t ht
          rcases List.mem_cons.mp ht with rfl | ht2
          · exact le_refl t
          · exact (List.pairwise_cons.mp hpw).1 t ht2
        have hfil : ((m0 :: m1 :: rest).filter (fun t => decide (t ≤ q))) = [m0] := by
          rw [List.filter_cons]
          rw [if_pos (by simpa using hq0)]
          have : ((m1 :: rest).filter (fun t => decide (t ≤ q))) = [] := by
            rw [List.filter_eq_nil_iff]
            intro t ht
            have := hsorted t ht
            simp only [decide_eq_true_eq]
            omega
          rw [this]
        rw [hfil]
        simp only [lastCriticalAfter, List.foldl, processMutation, if_pos]
        simp only [isStable, decide_eq_false_iff_not, not_le]
        omega
      · push_neg at hq1
        have hfil : ((m0 :: m1 :: rest).filter (fun t => decide (t ≤ q))) =
            m0 :: ((m1 :: rest).filter (fun t => decide (t ≤ q))) := by
          rw [List.filter_cons, if_pos (by simpa using hq0)]
        rw [hfil]
        have hstep : lastCriticalAfter init
            (m0 :: ((m1 :: rest).filter (fun t => decide (t ≤ q)))) =
            lastCriticalAfter m0 ((m1 :: rest).filter (fun t => decide (t ≤ q))) := by
          simp [lastCriticalAfter, List.foldl, processMutation]
        rw [hstep]
        have hlast : rest.getLastD m1 = (m1 :: rest).getLastD m0 :=
          (List.getLastD_cons _ _ _).symm
        exact ih m0 m1 hw hchain1 q hq1 (by rw [hlast]; exact hqlast)

/-- **C9** (witness): with window 1500 and critical mutations at times 0,
1000, 2000 (gaps 1000 < 1500), the observer still reports unstable at
time 3000 < 2000 + 1500. -/
theorem c9_never_stable_under_close_mutations_witness :
    processMutation 7 42 true = 42 ∧
    isStable 1500
      (lastCriticalAfter (-5)
        (([0, 1000, 2000] : List ℤ).filter (fun t => decide (t ≤ 3000)))) 3000
      = false := by
  refine ⟨c9_never_stable_under_close_mutations.1 7 42, ?_⟩
  exact c9_never_stable_under_close_mutations.2 1500 (-5) 0 [1000, 2000]
    (by norm_num)
    (by simp only [List.chain'_cons, List.chain'_singleton, and_true]; decide)
    3000 (by decide) (by decide)

end Autofill
